import Mathlib

/-!
Verification of the filesystem load-test harness
(`filesystem_load_test.py`).

The harness is embedded shallowly: external process outcomes (git, venv
creation, pip, the timed import) are supplied by explicit oracle records,
the filesystem is a list of workspace entries plus three flags for the
fixed `/tmp` folders the cleanup routine touches, and time is modelled by
rationals.  Every definition mirrors the corresponding Python function;
removals performed by `shutil.rmtree` are modelled as succeeding.
-/

namespace LoadTest

/-- Decides whether the character list `p` is an initial segment of `l`,
mirroring how Python evaluates `s.startswith(p)`. -/
def startswithChars : List Char → List Char → Bool
  | [], _ => true
  | _ :: _, [] => false
  | a :: as, b :: bs => a == b && startswithChars as bs

/-- Model of Python `s.startswith(p)`. -/
def startswith (s p : String) : Bool :=
  startswithChars p.data s.data

/-- One entry (file or directory) directly under the per-host workspace
directory `target_path / hostname`. -/
structure WsEntry where
  name : String
  isDir : Bool
deriving DecidableEq, Repr

/-- Filesystem state visible to the harness: the entries of the per-host
workspace directory, and existence flags for the three fixed temp folders
`/tmp/files`, `/tmp/opt`, `/tmp/pip` that `cleanup_test_artifacts` also
deletes. -/
structure FsState where
  workspace : List WsEntry
  tmpFiles : Bool
  tmpOpt : Bool
  tmpPip : Bool
deriving DecidableEq, Repr

/-- Remove every workspace entry having the given name, the effect of
`shutil.rmtree` on a path directly under the workspace. -/
def removeName (fs : FsState) (n : String) : FsState :=
  { fs with workspace := fs.workspace.filter (fun e => e.name ≠ n) }

/-- Create a directory with the given name in the workspace (overwriting
any previous entry at that path). -/
def addDir (fs : FsState) (n : String) : FsState :=
  { fs with workspace := ⟨n, true⟩ :: (removeName fs n).workspace }

/-- Whether some workspace entry has the given name, the effect of
`Path.exists()` on a path directly under the workspace. -/
def containsName (fs : FsState) (n : String) : Bool :=
  fs.workspace.any (fun e => e.name == n)

/-- The filter used by `cleanup_test_artifacts`: a directory whose name
starts with `test_repo_` or `test_venv_` is a transient test artifact. -/
def isTransientDir (e : WsEntry) : Bool :=
  e.isDir && (startswith e.name "test_repo_" || startswith e.name "test_venv_")

/-- Model of `FilesystemLoadTester.cleanup_test_artifacts` (lines 188-205):
removes every directory under the workspace whose name starts with
`test_repo_` or `test_venv_` (explicitly sparing `pandas_venv_` setups),
then removes `/tmp/files`, `/tmp/opt` and `/tmp/pip` when they are
directories. -/
def cleanup_test_artifacts (fs : FsState) : FsState :=
  { workspace := fs.workspace.filter (fun e => !(isTransientDir e))
    tmpFiles := false
    tmpOpt := false
    tmpPip := false }

/-- Name of the transient clone directory created by `test_git_clone`
for a given timestamp `t`: `test_repo_{int(time.time())}`. -/
def cloneDirName (t : Nat) : String :=
  "test_repo_" ++ toString t

/-- Name of the transient virtualenv directory created by
`test_virtualenv_install` for a given timestamp `t`. -/
def venvDirName (t : Nat) : String :=
  "test_venv_" ++ toString t

/-- Name of the persistent setup directory built by
`setup_pandas_load_test` for the test called `name`. -/
def pandasVenvName (name : String) : String :=
  "pandas_venv_" ++ name

/-- Oracle for one run of `test_git_clone`: the outcome of the external
`git clone` process (return code, stderr, whether the clone directory was
left on disk, whether `.git` exists inside it) and the elapsed time the
function measures on the success path. -/
structure CloneEnv where
  returncode : Int
  stderrText : String
  dirCreated : Bool
  gitMarker : Bool
  elapsed : ℚ
deriving Repr

/-- Model of `FilesystemLoadTester.test_git_clone` (lines 262-305).  The
clone process runs against a fresh `test_repo_{t}` directory; a non-zero
return code or a missing `.git` marker raises; the `finally` block removes
the clone directory whenever it exists, on success and on failure alike. -/
def test_git_clone (env : CloneEnv) (t : Nat) (fs : FsState) :
    Except String ℚ × FsState :=
  let dir := cloneDirName t
  let fs1 := if env.dirCreated then addDir fs dir else fs
  let res : Except String ℚ :=
    if env.returncode ≠ 0 then
      .error ("Git clone failed: " ++ env.stderrText)
    else if !env.gitMarker then
      .error "Repository was not properly cloned"
    else
      .ok env.elapsed
  let fs2 := if containsName fs1 dir then removeName fs1 dir else fs1
  (res, fs2)

/-- Oracle for one run of `test_virtualenv_install`: return codes and
stderr of the three external processes it spawns (venv creation, pip
install, pip list verification), whether the venv directory was left on
disk, and the elapsed time measured on the success path. -/
structure VenvEnv where
  createRc : Int
  createStderr : String
  installRc : Int
  installStderr : String
  verifyRc : Int
  verifyStderr : String
  dirCreated : Bool
  elapsed : ℚ
deriving Repr

/-- Model of `FilesystemLoadTester.test_virtualenv_install` (lines
307-391).  Creation runs first and a non-zero return code raises
"Virtual environment creation failed"; the pip install process runs next
but its return code is only logged, never checked; the `pip list -v`
verification runs last and a non-zero return code raises
"Package verification failed"; the `finally` block removes the venv
directory whenever it exists. -/
def test_virtualenv_install (env : VenvEnv) (t : Nat) (fs : FsState) :
    Except String ℚ × FsState :=
  let dir := venvDirName t
  let fs1 := if env.dirCreated then addDir fs dir else fs
  let res : Except String ℚ :=
    if env.createRc ≠ 0 then
      .error ("Virtual environment creation failed: " ++ env.createStderr)
    else if env.verifyRc ≠ 0 then
      .error ("Package verification failed: " ++ env.verifyStderr)
    else
      .ok env.elapsed
  let fs2 := if containsName fs1 dir then removeName fs1 dir else fs1
  (res, fs2)

/-- One entry of the `test_definitions` map: the workload type string and
the `setup_required` flag. -/
structure TestDef where
  ttype : String
  setup_required : Bool
deriving DecidableEq, Repr

/-- The harness configuration, the keys of `config.json` the loop reads. -/
structure Config where
  setup_id : String
  enabled_tests : List String
  test_definitions : List (String × TestDef)
  loop_interval_seconds : ℚ

/-- Lookup of a name in `test_definitions`. -/
def lookupDef (cfg : Config) (name : String) : Option TestDef :=
  (cfg.test_definitions.find? (fun p => p.1 == name)).map (fun p => p.2)

/-- One row handed to `DatabaseLogger.log_test_result`. -/
structure TestResult where
  setup_id : String
  test_name : String
  start_time : ℚ
  execution_time : ℚ
  success : Bool
  error_message : Option String
deriving DecidableEq, Repr

/-- Mutable harness state across test executions: the `setup_completed`
set, the filesystem, and a wall clock (rational seconds). -/
structure HarnessState where
  setup_completed : List String
  fs : FsState
  clock : ℚ

/-- Observable invocations made by `execute_test_case`: running the setup
action for a test, and calling the timed test function itself. -/
inductive Event where
  | setupRun (name : String)
  | testRun (name : String)
deriving DecidableEq, Repr

/-- Number of setup invocations for a given test name in an event
trace. -/
def countSetupRuns (name : String) (evs : List Event) : Nat :=
  (evs.filter (fun e => e = Event.setupRun name)).length

/-- Oracle for one call of `execute_test_case`: the outcome and duration
of the setup action if it runs (including whether the failed setup left a
partially built directory behind), and the outcome of the timed test
function (its own measured elapsed value on success, the wall time it
consumed, and its error text on failure). -/
structure ExecEnv where
  setupOk : Bool
  setupErr : String
  setupDuration : ℚ
  setupDirCreated : Bool
  testOk : Bool
  testErr : String
  testMeasured : ℚ
  testDuration : ℚ

/-- Result of the setup action: whether it completed, the error message it
raised otherwise, the filesystem it left behind, and its elapsed time. -/
structure SetupOutcome where
  ok : Bool
  errMsg : String
  fs : FsState
  elapsed : ℚ

/-- Model of `run_test_setup` (lines 393-400) together with
`setup_pandas_load_test` (lines 402-469).  For a `pandas_load` test the
existing persistent venv is removed first, then the venv is built and
pandas installed; on failure the cleanup handler removes the venv
directory if it exists and the error propagates.  For every other type no
setup method is defined: a warning is logged and the action trivially
succeeds without touching the filesystem. -/
def run_test_setup (env : ExecEnv) (name : String) (tc : TestDef) (fs : FsState) :
    SetupOutcome :=
  if tc.ttype == "pandas_load" then
    let dir := pandasVenvName name
    let fs0 := if containsName fs dir then removeName fs dir else fs
    if env.setupOk then
      ⟨true, "", addDir fs0 dir, env.setupDuration⟩
    else
      let fsTry := if env.setupDirCreated then addDir fs0 dir else fs0
      let fsClean := if containsName fsTry dir then removeName fsTry dir else fsTry
      ⟨false, env.setupErr, fsClean, env.setupDuration⟩
  else
    ⟨true, "", fs, 0⟩

/-- What one call of `execute_test_case` produces: the single `TestResult`
row it logs, the state it leaves, and the invocations it made. -/
structure ExecResult where
  result : TestResult
  state : HarnessState
  events : List Event

/-- The dispatch on `test_type` at the end of `execute_test_case` (lines
235-250): the three known types invoke the timed test function (its net
filesystem effect is none, since the clone and venv tests remove their
transient directory in `finally` and the pandas test only spawns a
process); an unknown type raises without invoking anything.  On success
the logged time is the value the test function returned; on failure it is
the wall time since `start_time`, which is `t0`. -/
def execBody (cfg : Config) (env : ExecEnv) (st : HarnessState) (t0 : ℚ)
    (name : String) (tc : TestDef) (evs : List Event) : ExecResult :=
  if tc.ttype == "git_clone" || tc.ttype == "virtualenv_install" ||
      tc.ttype == "pandas_load" then
    if env.testOk then
      { result := { setup_id := cfg.setup_id, test_name := name, start_time := t0,
                    execution_time := env.testMeasured, success := true,
                    error_message := none }
        state := { st with clock := st.clock + env.testDuration }
        events := evs ++ [Event.testRun name] }
    else
      { result := { setup_id := cfg.setup_id, test_name := name, start_time := t0,
                    execution_time := (st.clock + env.testDuration) - t0,
                    success := false, error_message := some env.testErr }
        state := { st with clock := st.clock + env.testDuration }
        events := evs ++ [Event.testRun name] }
  else
    { result := { setup_id := cfg.setup_id, test_name := name, start_time := t0,
                  execution_time := st.clock - t0, success := false,
                  error_message := some ("Unknown test type: " ++ tc.ttype) }
      state := st
      events := evs }

/-- Model of `FilesystemLoadTester.execute_test_case` (lines 207-260).  An
unknown name raises and is caught, still logging one failed result; a test
whose `setup_required` is true and whose name is not yet in
`setup_completed` runs its setup first, the name being added only after
the setup returns; a setup failure is caught at the top, logging one
failed result whose time spans from `start_time` and skipping the test
function.  Exactly one result row is produced in every case. -/
def execute_test_case (cfg : Config) (env : ExecEnv) (st : HarnessState)
    (name : String) : ExecResult :=
  let t0 := st.clock
  match lookupDef cfg name with
  | none =>
      { result := { setup_id := cfg.setup_id, test_name := name, start_time := t0,
                    execution_time := 0, success := false,
                    error_message :=
                      some ("Test case " ++ name ++ " not found in test_definitions") }
        state := st
        events := [] }
  | some tc =>
      if tc.setup_required && !(st.setup_completed.contains name) then
        let so := run_test_setup env name tc st.fs
        if so.ok then
          execBody cfg env
            { setup_completed := name :: st.setup_completed, fs := so.fs,
              clock := st.clock + so.elapsed }
            t0 name tc [Event.setupRun name]
        else
          { result := { setup_id := cfg.setup_id, test_name := name,
                        start_time := t0,
                        execution_time := (st.clock + so.elapsed) - t0,
                        success := false, error_message := some so.errMsg }
            state := { setup_completed := st.setup_completed, fs := so.fs,
                       clock := st.clock + so.elapsed }
            events := [Event.setupRun name] }
      else
        execBody cfg env st t0 name tc []

/-- What one iteration of `run_test_loop` produces: the result rows in
order, the final state, the invocations, and the diagnostics emitted for
enabled names missing from `test_definitions`. -/
structure IterOutcome where
  results : List TestResult
  state : HarnessState
  events : List Event
  unknownDiags : List String

/-- The per-iteration walk over `enabled_tests` (lines 553-557): a name
present in `test_definitions` is executed, a missing one only logs a
warning and is skipped; either way the walk continues with the next
name. -/
def runEnabled (cfg : Config) (envs : String → ExecEnv) (st : HarnessState) :
    List String → IterOutcome
  | [] => ⟨[], st, [], []⟩
  | n :: ns =>
      if (lookupDef cfg n).isSome then
        let e := execute_test_case cfg (envs n) st n
        let rest := runEnabled cfg envs e.state ns
        ⟨e.result :: rest.results, rest.state, e.events ++ rest.events,
          rest.unknownDiags⟩
      else
        let rest := runEnabled cfg envs st ns
        ⟨rest.results, rest.state, rest.events,
          ("Unknown test case " ++ n ++ " - skipping (not found in test_definitions)")
            :: rest.unknownDiags⟩

/-- One iteration of the body of `run_test_loop` (lines 547-560): run
every enabled test, then call `cleanup_test_artifacts`. -/
def run_loop_iteration (cfg : Config) (envs : String → ExecEnv)
    (st : HarnessState) : IterOutcome :=
  let o := runEnabled cfg envs st cfg.enabled_tests
  { o with state := { o.state with fs := cleanup_test_artifacts o.state.fs } }

/-- The scheduling decision at the end of an iteration: how long the loop
sleeps and how many overrun warnings it emits. -/
structure SchedTail where
  sleepSeconds : ℚ
  overrunWarnings : Nat
deriving DecidableEq, Repr

/-- Model of the wait logic of `run_test_loop` (lines 562-572): compute
`wait_time = max(0, loop_interval_seconds - loop_duration)`; when it is
positive sleep that long, otherwise sleep nothing and log one warning
that the loop took longer than the configured interval. -/
def loop_wait (interval loopDuration : ℚ) : SchedTail :=
  let wait_time := max 0 (interval - loopDuration)
  if wait_time > 0 then ⟨wait_time, 0⟩ else ⟨0, 1⟩

/-- Oracle for the signal handler: whether `shutil.rmtree` on the
workspace raises and whether the database disconnect raises. -/
structure TeardownEnv where
  rmtreeRaises : Bool
  disconnectRaises : Bool

/-- Lifecycle state the signal handler acts on: whether the per-host
workspace directory exists and whether the database handle is
connected. -/
structure LifeState where
  workspaceExists : Bool
  sinkConnected : Bool
deriving DecidableEq, Repr

/-- The teardown steps of the signal handler, in the order the code
performs them. -/
inductive TeardownStep where
  | removeWorkspace
  | disconnectSink
  | exitProcess
deriving DecidableEq, Repr

/-- What one run of the signal handler produces: the lifecycle state it
leaves, the steps it attempted in order, and the process exit status. -/
structure HandlerOutcome where
  state : LifeState
  stepsAttempted : List TeardownStep
  exitCode : Nat
deriving Repr

/-- Model of `FilesystemLoadTester._signal_handler` (lines 151-173).  It
removes the workspace tree if it exists, then disconnects the database,
then exits with status 0; each of the first two steps is wrapped in its
own try/except, so an exception there is logged and the following steps
still run.  A step that raises leaves its resource behind: a failed
rmtree leaves the directory, a failed close leaves the handle set. -/
def signal_handler (env : TeardownEnv) (st : LifeState) : HandlerOutcome :=
  let ws := if st.workspaceExists && !env.rmtreeRaises then false
            else st.workspaceExists
  let sink := if env.disconnectRaises then st.sinkConnected else false
  { state := { workspaceExists := ws, sinkConnected := sink }
    stepsAttempted := [.removeWorkspace, .disconnectSink, .exitProcess]
    exitCode := 0 }

end LoadTest

namespace LoadTest

/-- Helper: a character-list match pins down the head of the matched
list. -/
lemma startswithChars_head {c : Char} {p l : List Char}
    (h : startswithChars (c :: p) l = true) : l.head? = some c := by
  cases l with
  | nil => simp [startswithChars] at h
  | cons b bs =>
      simp only [startswithChars, Bool.and_eq_true, beq_iff_eq] at h
      simp [h.1]

/-- Helper: a name starting with `pandas_venv_` starts with neither
`test_repo_` nor `test_venv_`, so the cleanup filter never matches it. -/
lemma pandas_name_not_transient {n : String}
    (h : startswith n "pandas_venv_" = true) :
    startswith n "test_repo_" = false ∧ startswith n "test_venv_" = false := by
  have hp : n.data.head? = some 'p' := startswithChars_head h
  constructor
  · by_contra hc
    have ht : startswith n "test_repo_" = true := by
      revert hc; cases startswith n "test_repo_" <;> simp
    have := startswithChars_head ht
    rw [hp] at this
    simp at this
  · by_contra hc
    have ht : startswith n "test_venv_" = true := by
      revert hc; cases startswith n "test_venv_" <;> simp
    have := startswithChars_head ht
    rw [hp] at this
    simp at this

/-- Helper: after the pattern `if path.exists(): shutil.rmtree(path)`, no
workspace entry carries the removed name. -/
lemma removeIfContains_no_name (fs : FsState) (dir : String) :
    ∀ e ∈ (if containsName fs dir then removeName fs dir else fs).workspace,
      e.name ≠ dir := by
  intro e he
  by_cases h : containsName fs dir = true
  · rw [if_pos h] at he
    simp only [removeName, List.mem_filter, decide_eq_true_eq] at he
    exact he.2
  · rw [if_neg h] at he
    intro hn
    apply h
    show fs.workspace.any (fun e => e.name == dir) = true
    exact List.any_eq_true.mpr ⟨e, he, by simp [hn]⟩

/-- The property of C8: the claim theorem about idempotence. -/
theorem cleanup_idem (fs : FsState) :
    cleanup_test_artifacts (cleanup_test_artifacts fs) = cleanup_test_artifacts fs := by
  simp [cleanup_test_artifacts, List.filter_filter]

/-- C9: every run of `cleanup_test_artifacts` also deletes the fixed
directories `/tmp/files`, `/tmp/opt` and `/tmp/pip`, which lie outside the
per-host workspace, whatever the state of the workspace itself: after the
call none of the three exists. -/
theorem cleanup_removes_fixed_tmp_dirs (fs : FsState) :
    (cleanup_test_artifacts fs).tmpFiles = false ∧
    (cleanup_test_artifacts fs).tmpOpt = false ∧
    (cleanup_test_artifacts fs).tmpPip = false := by
  simp [cleanup_test_artifacts]

/-- C6: after a clone or a venv-install execution, whatever its outcome,
the transient directory of that execution is gone from the workspace; and
`cleanup_test_artifacts` only removes workspace entries that are
directories matching the transient naming conventions, never touching the
persistent `pandas_venv_` setups. -/
theorem transient_artifacts_cleaned :
    (∀ (env : CloneEnv) (t : Nat) (fs : FsState),
      ∀ e ∈ (test_git_clone env t fs).2.workspace, e.name ≠ cloneDirName t) ∧
    (∀ (env : VenvEnv) (t : Nat) (fs : FsState),
      ∀ e ∈ (test_virtualenv_install env t fs).2.workspace, e.name ≠ venvDirName t) ∧
    (∀ (fs : FsState) (e : WsEntry),
      e ∈ (cleanup_test_artifacts fs).workspace → e ∈ fs.workspace) ∧
    (∀ (fs : FsState) (e : WsEntry),
      e ∈ fs.workspace → e ∉ (cleanup_test_artifacts fs).workspace →
        e.isDir = true ∧
        (startswith e.name "test_repo_" = true ∨ startswith e.name "test_venv_" = true)) ∧
    (∀ (fs : FsState) (e : WsEntry),
      e ∈ fs.workspace → startswith e.name "pandas_venv_" = true →
        e ∈ (cleanup_test_artifacts fs).workspace) := by
  refine ⟨?_, ?_, ?_, ?_, ?_⟩
  · intro env t fs e he
    exact removeIfContains_no_name _ (cloneDirName t) e he
  · intro env t fs e he
    exact removeIfContains_no_name _ (venvDirName t) e he
  · intro fs e he
    exact (List.mem_filter.mp he).1
  · intro fs e hmem hnot
    have : ¬ (e ∈ fs.workspace ∧ (!(isTransientDir e)) = true) := by
      intro hc
      exact hnot (List.mem_filter.mpr hc)
    have htr : isTransientDir e = true := by
      by_contra hb
      exact this ⟨hmem, by revert hb; cases isTransientDir e <;> simp⟩
    simp only [isTransientDir, Bool.and_eq_true, Bool.or_eq_true] at htr
    exact ⟨htr.1, htr.2⟩
  · intro fs e hmem hp
    have hd := pandas_name_not_transient hp
    refine List.mem_filter.mpr ⟨hmem, ?_⟩
    simp [isTransientDir, hd.1, hd.2]

/-- Witness for C6 at concrete inputs: a persistent setup directory
survives a cleanup that runs right next to a transient clone directory. -/
theorem transient_artifacts_cleaned_witness :
    (⟨"pandas_venv_a", true⟩ : WsEntry) ∈
      (cleanup_test_artifacts
        { workspace := [⟨"pandas_venv_a", true⟩, ⟨"test_repo_1", true⟩],
          tmpFiles := true, tmpOpt := true, tmpPip := true }).workspace := by
  exact transient_artifacts_cleaned.2.2.2.2
    { workspace := [⟨"pandas_venv_a", true⟩, ⟨"test_repo_1", true⟩],
      tmpFiles := true, tmpOpt := true, tmpPip := true }
    ⟨"pandas_venv_a", true⟩ (by simp) (by decide)

/-- Helper: every branch of `execute_test_case` stamps the executed name
into the logged result row. -/
lemma exec_result_test_name (cfg : Config) (env : ExecEnv) (st : HarnessState)
    (name : String) :
    (execute_test_case cfg env st name).result.test_name = name := by
  unfold execute_test_case execBody
  cases lookupDef cfg name with
  | none => rfl
  | some tc =>
      simp only []
      split
      · split
        · split
          · split <;> rfl
          · rfl
        · rfl
      · split
        · split <;> rfl
        · rfl

/-- Helper: the walk over `enabled_tests` logs one result row per defined
name, in order. -/
lemma runEnabled_names (cfg : Config) (envs : String → ExecEnv) :
    ∀ (ns : List String) (st : HarnessState),
      (runEnabled cfg envs st ns).results.map (fun r => r.test_name) =
        ns.filter (fun n => (lookupDef cfg n).isSome) := by
  intro ns
  induction ns with
  | nil => intro st; rfl
  | cons n ns ih =>
      intro st
      cases h : (lookupDef cfg n).isSome with
      | true => simp [runEnabled, h, ih, exec_result_test_name, List.filter_cons]
      | false => simp [runEnabled, h, ih, List.filter_cons]

/-- Helper: the walk over `enabled_tests` emits one skip diagnostic per
undefined name. -/
lemma runEnabled_diag_count (cfg : Config) (envs : String → ExecEnv) :
    ∀ (ns : List String) (st : HarnessState),
      (runEnabled cfg envs st ns).unknownDiags.length =
        (ns.filter (fun n => (lookupDef cfg n).isNone)).length := by
  intro ns
  induction ns with
  | nil => intro st; rfl
  | cons n ns ih =>
      intro st
      cases h : (lookupDef cfg n).isSome with
      | true =>
          have h2 : (lookupDef cfg n).isNone = false := by
            simp [Option.isNone_eq_false_iff, Option.isSome_iff_exists] at h ⊢
            obtain ⟨v, hv⟩ := h
            simp [hv]
          simp [runEnabled, h, ih, List.filter_cons, h2]
      | false =>
          have h2 : (lookupDef cfg n).isNone = true := by
            cases hl : lookupDef cfg n
            · rfl
            · rw [hl] at h; simp at h
          simp [runEnabled, h, ih, List.filter_cons, h2]

/-- C2: in every loop iteration exactly one result row is produced per
enabled name that is defined in `test_definitions` (in order, regardless
of success or failure), and every enabled name missing from
`test_definitions` yields exactly one skip diagnostic, no result row, and
does not stop the walk. -/
theorem one_result_per_defined_workload (cfg : Config) (envs : String → ExecEnv)
    (st : HarnessState) :
    (run_loop_iteration cfg envs st).results.map (fun r => r.test_name) =
      cfg.enabled_tests.filter (fun n => (lookupDef cfg n).isSome) ∧
    (run_loop_iteration cfg envs st).unknownDiags.length =
      (cfg.enabled_tests.filter (fun n => (lookupDef cfg n).isNone)).length := by
  unfold run_loop_iteration
  exact ⟨runEnabled_names cfg envs _ st, runEnabled_diag_count cfg envs _ st⟩

/-- C4: the scheduler sleeps exactly `max 0 (interval - duration)`; when
the iteration ran at least as long as the interval it sleeps nothing and
emits exactly one overrun warning, and an iteration never skips a
workload: whatever happened before, it still produces one row per defined
enabled name. -/
theorem scheduler_wait_spec (interval d : ℚ) :
    (loop_wait interval d).sleepSeconds = max 0 (interval - d) ∧
    (interval ≤ d →
      (loop_wait interval d).sleepSeconds = 0 ∧
      (loop_wait interval d).overrunWarnings = 1) ∧
    (d < interval →
      (loop_wait interval d).sleepSeconds = interval - d ∧
      (loop_wait interval d).overrunWarnings = 0) ∧
    (∀ (cfg : Config) (envs : String → ExecEnv) (st : HarnessState),
      (run_loop_iteration cfg envs st).results.map (fun r => r.test_name) =
        cfg.enabled_tests.filter (fun n => (lookupDef cfg n).isSome)) := by
  refine ⟨?_, ?_, ?_, ?_⟩
  · by_cases h : (0 : ℚ) < max 0 (interval - d)
    · simp [loop_wait, h]
    · have h0 : max 0 (interval - d) = 0 :=
        le_antisymm (not_lt.mp h) (le_max_left _ _)
      simp [loop_wait, h, h0]
  · intro hle
    have h0 : max 0 (interval - d) = 0 :=
      max_eq_left (by linarith)
    unfold loop_wait
    rw [h0]
    simp
  · intro hlt
    have hpos : (0 : ℚ) < interval - d := by linarith
    have h0 : max 0 (interval - d) = interval - d :=
      max_eq_right (le_of_lt hpos)
    unfold loop_wait
    rw [h0, if_pos hpos]
    exact ⟨rfl, rfl⟩
  · intro cfg envs st
    unfold run_loop_iteration
    exact runEnabled_names cfg envs _ st

/-- Witness for C4 at concrete inputs: a 12-second iteration against a
10-second interval sleeps nothing and warns once; a 3-second iteration
sleeps the remaining 7 seconds. -/
theorem scheduler_wait_spec_witness :
    (loop_wait 10 12).sleepSeconds = 0 ∧ (loop_wait 10 12).overrunWarnings = 1 ∧
    (loop_wait 10 3).sleepSeconds = 10 - 3 ∧ (loop_wait 10 3).overrunWarnings = 0 := by
  obtain ⟨-, h2, -, -⟩ := scheduler_wait_spec 10 12
  obtain ⟨-, -, h3, -⟩ := scheduler_wait_spec 10 3
  exact ⟨(h2 (by norm_num)).1, (h2 (by norm_num)).2,
    (h3 (by norm_num)).1, (h3 (by norm_num)).2⟩

/-- Counterexample for C3: a pip install process exiting with status 1
does not fail the venv-install workload, because its return code is never
checked; with creation and verification both returning 0 the workload
reports success. -/
theorem venv_install_rc_unchecked_cex :
    (1 : Int) ≠ 0 ∧
    (test_virtualenv_install
        { createRc := 0, createStderr := "", installRc := 1,
          installStderr := "No matching distribution found", verifyRc := 0,
          verifyStderr := "", dirCreated := true, elapsed := 5 }
        0 { workspace := [], tmpFiles := false, tmpOpt := false, tmpPip := false }).1 =
      Except.ok 5 := by
  exact ⟨by decide, rfl⟩

/-- C3 (amended): in the venv-install workload a non-zero exit of the
environment-creation process fails the operation with the creation-stage
error; the package-installation process's exit status is never checked
and the outcome is independent of it; instead a non-zero exit of the
post-install verification process (`pip list -v`) fails the operation
with a verification-stage error, distinguishable from the creation
error. -/
theorem venv_install_stage_errors (env : VenvEnv) (t : Nat) (fs : FsState) :
    (env.createRc ≠ 0 →
      (test_virtualenv_install env t fs).1 =
        Except.error ("Virtual environment creation failed: " ++ env.createStderr)) ∧
    (env.createRc = 0 → env.verifyRc ≠ 0 →
      (test_virtualenv_install env t fs).1 =
        Except.error ("Package verification failed: " ++ env.verifyStderr)) ∧
    (∀ rc : Int,
      (test_virtualenv_install { env with installRc := rc } t fs).1 =
        (test_virtualenv_install env t fs).1) ∧
    (∀ s s' : String,
      ("Virtual environment creation failed: " ++ s) ≠
        ("Package verification failed: " ++ s')) := by
  refine ⟨?_, ?_, ?_, ?_⟩
  · intro h
    simp [test_virtualenv_install, h]
  · intro h1 h2
    simp [test_virtualenv_install, h1, h2]
  · intro rc
    rfl
  · intro s s' h
    have := congrArg String.data h
    rw [String.data_append, String.data_append] at this
    simp at this

/-- Witness for C3 (amended) at concrete inputs: a failing creation
process yields the creation-stage error. -/
theorem venv_install_stage_errors_witness :
    (test_virtualenv_install
        { createRc := 1, createStderr := "boom", installRc := 0,
          installStderr := "", verifyRc := 0, verifyStderr := "",
          dirCreated := false, elapsed := 5 }
        0 { workspace := [], tmpFiles := false, tmpOpt := false, tmpPip := false }).1 =
      Except.error ("Virtual environment creation failed: " ++ "boom") := by
  exact (venv_install_stage_errors
    { createRc := 1, createStderr := "boom", installRc := 0,
      installStderr := "", verifyRc := 0, verifyStderr := "",
      dirCreated := false, elapsed := 5 }
    0 { workspace := [], tmpFiles := false, tmpOpt := false, tmpPip := false }).1
    (by decide)

/-- Counterexample for C7: when the workspace removal step raises, the
handler still attempts every following step and exits with status 0, but
the workspace directory is left behind, so the claimed unconditional
"workspace absent afterwards" is false. -/
theorem signal_handler_workspace_left_cex :
    (signal_handler ⟨true, false⟩ ⟨true, true⟩).exitCode = 0 ∧
    (signal_handler ⟨true, false⟩ ⟨true, true⟩).stepsAttempted =
      [TeardownStep.removeWorkspace, TeardownStep.disconnectSink,
        TeardownStep.exitProcess] ∧
    (signal_handler ⟨true, false⟩ ⟨true, true⟩).state.workspaceExists = true := by
  exact ⟨rfl, rfl, rfl⟩

/-- C7 (amended): the signal handler attempts workspace removal, then
sink disconnection, then process exit, in that order, and always exits
with status 0 whether or not the teardown steps raise; when the removal
step raises no exception the workspace directory is absent afterwards,
and when the disconnect step raises no exception the sink handle is
disconnected afterwards. -/
theorem signal_handler_spec (env : TeardownEnv) (st : LifeState) :
    (signal_handler env st).exitCode = 0 ∧
    (signal_handler env st).stepsAttempted =
      [TeardownStep.removeWorkspace, TeardownStep.disconnectSink,
        TeardownStep.exitProcess] ∧
    (env.rmtreeRaises = false →
      (signal_handler env st).state.workspaceExists = false) ∧
    (env.disconnectRaises = false →
      (signal_handler env st).state.sinkConnected = false) := by
  refine ⟨rfl, rfl, ?_, ?_⟩
  · intro h
    unfold signal_handler
    cases st.workspaceExists <;> simp [h]
  · intro h
    unfold signal_handler
    simp [h]

/-- Witness for C7 (amended) at concrete inputs: with no teardown failure
the workspace is gone and the sink disconnected. -/
theorem signal_handler_spec_witness :
    (signal_handler ⟨false, false⟩ ⟨true, true⟩).state.workspaceExists = false ∧
    (signal_handler ⟨false, false⟩ ⟨true, true⟩).state.sinkConnected = false := by
  exact ⟨(signal_handler_spec ⟨false, false⟩ ⟨true, true⟩).2.2.1 rfl,
    (signal_handler_spec ⟨false, false⟩ ⟨true, true⟩).2.2.2 rfl⟩

/-- Helper: converts a negative contains test to non-membership. -/
lemma not_mem_of_contains_false {l : List String} {a : String}
    (h : l.contains a = false) : a ∉ l := by
  intro hm
  have h2 : l.elem a = false := h
  rw [List.elem_iff.mpr hm] at h2
  cases h2

/-- Helper: converts membership to a positive contains test. -/
lemma contains_true_of_mem {l : List String} {a : String} (h : a ∈ l) :
    l.contains a = true :=
  List.elem_iff.mpr h

/-- Helper: `execute_test_case` reduced at a defined name. -/
lemma exec_unfold (cfg : Config) (env : ExecEnv) (st : HarnessState)
    (name : String) (tc : TestDef) (hdef : lookupDef cfg name = some tc) :
    execute_test_case cfg env st name =
      (if tc.setup_required && !(st.setup_completed.contains name) then
        (if (run_test_setup env name tc st.fs).ok then
          execBody cfg env
            { setup_completed := name :: st.setup_completed,
              fs := (run_test_setup env name tc st.fs).fs,
              clock := st.clock + (run_test_setup env name tc st.fs).elapsed }
            st.clock name tc [Event.setupRun name]
        else
          { result := { setup_id := cfg.setup_id, test_name := name,
                        start_time := st.clock,
                        execution_time :=
                          (st.clock + (run_test_setup env name tc st.fs).elapsed)
                            - st.clock,
                        success := false,
                        error_message :=
                          some (run_test_setup env name tc st.fs).errMsg }
            state := { setup_completed := st.setup_completed,
                       fs := (run_test_setup env name tc st.fs).fs,
                       clock := st.clock + (run_test_setup env name tc st.fs).elapsed }
            events := [Event.setupRun name] })
      else execBody cfg env st st.clock name tc []) := by
  unfold execute_test_case
  rw [hdef]

/-- Helper: the dispatch never touches the setup-completed set. -/
lemma execBody_setup_completed (cfg : Config) (env : ExecEnv) (st : HarnessState)
    (t0 : ℚ) (name : String) (tc : TestDef) (evs : List Event) :
    (execBody cfg env st t0 name tc evs).state.setup_completed =
      st.setup_completed := by
  unfold execBody
  split
  · split <;> rfl
  · rfl

/-- Helper: the dispatch appends at most one test invocation to the event
trace. -/
lemma execBody_events (cfg : Config) (env : ExecEnv) (st : HarnessState)
    (t0 : ℚ) (name : String) (tc : TestDef) (evs : List Event) :
    (execBody cfg env st t0 name tc evs).events = evs ++ [Event.testRun name] ∨
    (execBody cfg env st t0 name tc evs).events = evs := by
  unfold execBody
  split
  · split
    · exact Or.inl rfl
    · exact Or.inl rfl
  · exact Or.inr rfl

/-- Helper: a test invocation does not count as a setup invocation. -/
lemma countSetupRuns_append_testRun (name n2 : String) (evs : List Event) :
    countSetupRuns name (evs ++ [Event.testRun n2]) = countSetupRuns name evs := by
  simp [countSetupRuns, List.filter_append, List.filter]

/-- Helper: counting setup invocations over a concatenation. -/
lemma countSetupRuns_append (name : String) (l1 l2 : List Event) :
    countSetupRuns name (l1 ++ l2) =
      countSetupRuns name l1 + countSetupRuns name l2 := by
  simp [countSetupRuns, List.filter_append]

/-- Helper: the dispatch contributes no setup invocation beyond those
already in the trace. -/
lemma countSetupRuns_execBody (cfg : Config) (env : ExecEnv) (st : HarnessState)
    (t0 : ℚ) (name n2 : String) (tc : TestDef) (evs : List Event) :
    countSetupRuns name (execBody cfg env st t0 n2 tc evs).events =
      countSetupRuns name evs := by
  rcases execBody_events cfg env st t0 n2 tc evs with h | h
  · rw [h, countSetupRuns_append_testRun]
  · rw [h]

/-- Helper: counting a trace that is exactly one setup invocation. -/
lemma countSetupRuns_single (name : String) :
    countSetupRuns name [Event.setupRun name] = 1 := by
  simp [countSetupRuns, List.filter]

/-- C1: for a workload whose definition requires setup, the timed test
function is invoked only when the setup action has completed successfully
in this process lifetime (either before this call, or during it); once
the name is in the setup-completed set no further setup invocation
happens; hence two consecutive executions whose first setup action
completes successfully invoke setup at most once in total. -/
theorem setup_precedes_test_and_runs_once
    (cfg : Config) (env : ExecEnv) (st : HarnessState) (name : String)
    (tc : TestDef) (hdef : lookupDef cfg name = some tc)
    (hreq : tc.setup_required = true) :
    (Event.testRun name ∈ (execute_test_case cfg env st name).events →
      name ∈ (execute_test_case cfg env st name).state.setup_completed ∧
      (name ∈ st.setup_completed ∨ (run_test_setup env name tc st.fs).ok = true)) ∧
    (name ∈ st.setup_completed →
      countSetupRuns name (execute_test_case cfg env st name).events = 0) ∧
    (∀ env2 : ExecEnv, (run_test_setup env name tc st.fs).ok = true →
      countSetupRuns name
        ((execute_test_case cfg env st name).events ++
          (execute_test_case cfg env2
            (execute_test_case cfg env st name).state name).events) ≤ 1) := by
  rw [exec_unfold cfg env st name tc hdef]
  by_cases hmem : name ∈ st.setup_completed
  · have hc : st.setup_completed.contains name = true := contains_true_of_mem hmem
    simp only [hreq, hc, Bool.not_true, Bool.and_false, Bool.false_eq_true, if_false]
    refine ⟨?_, ?_, ?_⟩
    · intro _
      refine ⟨?_, Or.inl hmem⟩
      rw [execBody_setup_completed]
      exact hmem
    · intro _
      rw [countSetupRuns_execBody]
      rfl
    · intro env2 _
      rw [countSetupRuns_append, countSetupRuns_execBody]
      have hc2 : ((execBody cfg env st st.clock name tc
          []).state.setup_completed).contains name = true := by
        rw [execBody_setup_completed]
        exact hc
      rw [exec_unfold cfg env2 _ name tc hdef]
      simp only [hreq, hc2, Bool.not_true, Bool.and_false, Bool.false_eq_true,
        if_false]
      rw [countSetupRuns_execBody]
      simp [countSetupRuns]
  · have hc : st.setup_completed.contains name = false := by
      cases h2 : st.setup_completed.contains name
      · rfl
      · exact absurd (List.elem_iff.mp h2) hmem
    simp only [hreq, hc, Bool.not_false, Bool.and_true, if_true]
    cases hok : (run_test_setup env name tc st.fs).ok with
    | true =>
        rw [if_pos rfl]
        refine ⟨?_, ?_, ?_⟩
        · intro _
          refine ⟨?_, Or.inr rfl⟩
          rw [execBody_setup_completed]
          exact List.mem_cons_self _ _
        · intro hmem2
          exact absurd hmem2 hmem
        · intro env2 _
          rw [countSetupRuns_append, countSetupRuns_execBody,
            countSetupRuns_single]
          have hc2 : ((execBody cfg env
              { setup_completed := name :: st.setup_completed,
                fs := (run_test_setup env name tc st.fs).fs,
                clock := st.clock + (run_test_setup env name tc st.fs).elapsed }
              st.clock name tc
              [Event.setupRun name]).state.setup_completed).contains name = true := by
            rw [execBody_setup_completed]
            exact contains_true_of_mem (List.mem_cons_self _ _)
          rw [exec_unfold cfg env2 _ name tc hdef]
          simp only [hreq, hc2, Bool.not_true, Bool.and_false, Bool.false_eq_true,
            if_false]
          rw [countSetupRuns_execBody]
          simp [countSetupRuns]
    | false =>
        rw [if_neg (by simp)]
        refine ⟨?_, ?_, ?_⟩
        · intro htest
          simp at htest
        · intro hmem2
          exact absurd hmem2 hmem
        · intro env2 hok2
          cases hok2

/-- Witness for C1 at a concrete configuration: a pandas-load test with
required setup, executed twice in a row, runs its setup exactly once. -/
theorem setup_precedes_test_and_runs_once_witness :
    countSetupRuns "imp"
      ((execute_test_case
          { setup_id := "s", enabled_tests := ["imp"],
            test_definitions := [("imp", { ttype := "pandas_load", setup_required := true })],
            loop_interval_seconds := 10 }
          { setupOk := true, setupErr := "", setupDuration := 2,
            setupDirCreated := true, testOk := true, testErr := "",
            testMeasured := 1, testDuration := 1 }
          { setup_completed := [],
            fs := { workspace := [], tmpFiles := false, tmpOpt := false, tmpPip := false },
            clock := 0 } "imp").events ++
        (execute_test_case
          { setup_id := "s", enabled_tests := ["imp"],
            test_definitions := [("imp", { ttype := "pandas_load", setup_required := true })],
            loop_interval_seconds := 10 }
          { setupOk := true, setupErr := "", setupDuration := 2,
            setupDirCreated := true, testOk := true, testErr := "",
            testMeasured := 1, testDuration := 1 }
          (execute_test_case
            { setup_id := "s", enabled_tests := ["imp"],
              test_definitions := [("imp", { ttype := "pandas_load", setup_required := true })],
              loop_interval_seconds := 10 }
            { setupOk := true, setupErr := "", setupDuration := 2,
              setupDirCreated := true, testOk := true, testErr := "",
              testMeasured := 1, testDuration := 1 }
            { setup_completed := [],
              fs := { workspace := [], tmpFiles := false, tmpOpt := false, tmpPip := false },
              clock := 0 } "imp").state "imp").events) ≤ 1 := by
  exact (setup_precedes_test_and_runs_once
    { setup_id := "s", enabled_tests := ["imp"],
      test_definitions := [("imp", { ttype := "pandas_load", setup_required := true })],
      loop_interval_seconds := 10 }
    { setupOk := true, setupErr := "", setupDuration := 2,
      setupDirCreated := true, testOk := true, testErr := "",
      testMeasured := 1, testDuration := 1 }
    { setup_completed := [],
      fs := { workspace := [], tmpFiles := false, tmpOpt := false, tmpPip := false },
      clock := 0 } "imp" { ttype := "pandas_load", setup_required := true }
    rfl rfl).2.2
    { setupOk := true, setupErr := "", setupDuration := 2,
      setupDirCreated := true, testOk := true, testErr := "",
      testMeasured := 1, testDuration := 1 } rfl

/-- Helper: a setup invocation already in the trace survives the
dispatch. -/
lemma setupRun_mem_execBody (cfg : Config) (env : ExecEnv) (st : HarnessState)
    (t0 : ℚ) (name : String) (tc : TestDef) :
    Event.setupRun name ∈
      (execBody cfg env st t0 name tc [Event.setupRun name]).events := by
  rcases execBody_events cfg env st t0 name tc [Event.setupRun name] with h | h <;>
    rw [h] <;> simp

/-- C5: when the setup action of a pandas-load workload fails, the
persistent `pandas_venv_` directory is absent afterwards, the name is not
added to the setup-completed set, the execution is recorded as one failed
result carrying the setup error, and any later execution of the same name
attempts setup again. -/
theorem setup_failure_retried (cfg : Config) (env : ExecEnv) (st : HarnessState)
    (name : String) (tc : TestDef)
    (hdef : lookupDef cfg name = some tc) (hreq : tc.setup_required = true)
    (htype : tc.ttype = "pandas_load")
    (hnot : st.setup_completed.contains name = false)
    (hfail : env.setupOk = false) :
    (∀ e ∈ (execute_test_case cfg env st name).state.fs.workspace,
      e.name ≠ pandasVenvName name) ∧
    name ∉ (execute_test_case cfg env st name).state.setup_completed ∧
    (execute_test_case cfg env st name).result.success = false ∧
    (execute_test_case cfg env st name).result.error_message = some env.setupErr ∧
    (∀ env2 : ExecEnv,
      Event.setupRun name ∈
        (execute_test_case cfg env2
          (execute_test_case cfg env st name).state name).events) := by
  have hok : (run_test_setup env name tc st.fs).ok = false := by
    simp [run_test_setup, htype, hfail]
  have herr : (run_test_setup env name tc st.fs).errMsg = env.setupErr := by
    simp [run_test_setup, htype, hfail]
  have hfs : ∀ e ∈ (run_test_setup env name tc st.fs).fs.workspace,
      e.name ≠ pandasVenvName name := by
    simp only [run_test_setup, htype, hfail]
    simp only [beq_self_eq_true, if_true, Bool.false_eq_true, if_false]
    exact removeIfContains_no_name _ _
  rw [exec_unfold cfg env st name tc hdef]
  simp only [hreq, hnot, Bool.not_false, Bool.and_true, if_true, hok,
    Bool.false_eq_true, if_false]
  refine ⟨hfs, not_mem_of_contains_false hnot, by trivial, by simp [herr], ?_⟩
  intro env2
  have hc2 : (({ setup_completed := st.setup_completed,
                 fs := (run_test_setup env name tc st.fs).fs,
                 clock := st.clock + (run_test_setup env name tc st.fs).elapsed } :
                 HarnessState).setup_completed).contains name = false := hnot
  rw [exec_unfold cfg env2 _ name tc hdef]
  simp only [hc2, hreq, Bool.not_false, Bool.and_true, if_true]
  cases hok2 : (run_test_setup env2 name tc
      ({ setup_completed := st.setup_completed,
         fs := (run_test_setup env name tc st.fs).fs,
         clock := st.clock + (run_test_setup env name tc st.fs).elapsed } :
         HarnessState).fs).ok with
  | true =>
      rw [if_pos rfl]
      exact setupRun_mem_execBody ..
  | false =>
      rw [if_neg (by simp)]
      simp

/-- Witness for C5 at a concrete configuration: a failing pandas-load
setup yields a failed result row. -/
theorem setup_failure_retried_witness :
    (execute_test_case
        { setup_id := "s", enabled_tests := ["imp"],
          test_definitions := [("imp", { ttype := "pandas_load", setup_required := true })],
          loop_interval_seconds := 10 }
        { setupOk := false, setupErr := "Virtual environment creation failed: boom",
          setupDuration := 2, setupDirCreated := true, testOk := true,
          testErr := "", testMeasured := 1, testDuration := 1 }
        { setup_completed := [],
          fs := { workspace := [], tmpFiles := false, tmpOpt := false, tmpPip := false },
          clock := 0 } "imp").result.success = false := by
  exact (setup_failure_retried
    { setup_id := "s", enabled_tests := ["imp"],
      test_definitions := [("imp", { ttype := "pandas_load", setup_required := true })],
      loop_interval_seconds := 10 }
    { setupOk := false, setupErr := "Virtual environment creation failed: boom",
      setupDuration := 2, setupDirCreated := true, testOk := true,
      testErr := "", testMeasured := 1, testDuration := 1 }
    { setup_completed := [],
      fs := { workspace := [], tmpFiles := false, tmpOpt := false, tmpPip := false },
      clock := 0 } "imp" { ttype := "pandas_load", setup_required := true }
    rfl rfl rfl rfl rfl).2.2.1

/-- C10: the logged execution time depends on the outcome.  On success it
is the value the timed test function itself measured and returned (which
never includes setup work); on failure it is the wall-clock span from the
start of `execute_test_case` to the failure, so a failure after a setup
run includes the whole setup duration. -/
theorem execution_time_semantics (cfg : Config) (env : ExecEnv)
    (st : HarnessState) (name : String) (tc : TestDef)
    (hdef : lookupDef cfg name = some tc)
    (htype : tc.ttype = "git_clone" ∨ tc.ttype = "virtualenv_install" ∨
      tc.ttype = "pandas_load") :
    ((tc.setup_required && !(st.setup_completed.contains name)) = false →
      env.testOk = true →
      (execute_test_case cfg env st name).result.execution_time = env.testMeasured) ∧
    ((tc.setup_required && !(st.setup_completed.contains name)) = true →
      (run_test_setup env name tc st.fs).ok = true →
      env.testOk = true →
      (execute_test_case cfg env st name).result.execution_time = env.testMeasured) ∧
    ((tc.setup_required && !(st.setup_completed.contains name)) = false →
      env.testOk = false →
      (execute_test_case cfg env st name).result.execution_time = env.testDuration) ∧
    ((tc.setup_required && !(st.setup_completed.contains name)) = true →
      (run_test_setup env name tc st.fs).ok = true →
      env.testOk = false →
      (execute_test_case cfg env st name).result.execution_time =
        (run_test_setup env name tc st.fs).elapsed + env.testDuration) := by
  have htypeb : (tc.ttype == "git_clone" || tc.ttype == "virtualenv_install" ||
      tc.ttype == "pandas_load") = true := by
    rcases htype with h | h | h <;> rw [h] <;> rfl
  refine ⟨?_, ?_, ?_, ?_⟩
  · intro hcond htest
    rw [exec_unfold cfg env st name tc hdef]
    simp only [hcond, Bool.false_eq_true, if_false]
    simp [execBody, htypeb, htest]
  · intro hcond hok htest
    rw [exec_unfold cfg env st name tc hdef]
    simp only [hcond, if_true, hok]
    simp [execBody, htypeb, htest]
  · intro hcond htest
    rw [exec_unfold cfg env st name tc hdef]
    simp only [hcond, Bool.false_eq_true, if_false]
    simp [execBody, htypeb, htest]
  · intro hcond hok htest
    rw [exec_unfold cfg env st name tc hdef]
    simp only [hcond, if_true, hok]
    simp [execBody, htypeb, htest]
    ring

/-- Witness for C10 at a concrete configuration: a successful clone logs
the time the test function measured, and a failing clone logs the wall
time it spent. -/
theorem execution_time_semantics_witness :
    (execute_test_case
        { setup_id := "s", enabled_tests := ["clone"],
          test_definitions := [("clone", { ttype := "git_clone", setup_required := false })],
          loop_interval_seconds := 10 }
        { setupOk := true, setupErr := "", setupDuration := 0,
          setupDirCreated := false, testOk := true, testErr := "",
          testMeasured := 5, testDuration := 6 }
        { setup_completed := [],
          fs := { workspace := [], tmpFiles := false, tmpOpt := false, tmpPip := false },
          clock := 0 } "clone").result.execution_time = 5 := by
  exact (execution_time_semantics
    { setup_id := "s", enabled_tests := ["clone"],
      test_definitions := [("clone", { ttype := "git_clone", setup_required := false })],
      loop_interval_seconds := 10 }
    { setupOk := true, setupErr := "", setupDuration := 0,
      setupDirCreated := false, testOk := true, testErr := "",
      testMeasured := 5, testDuration := 6 }
    { setup_completed := [],
      fs := { workspace := [], tmpFiles := false, tmpOpt := false, tmpPip := false },
      clock := 0 } "clone" { ttype := "git_clone", setup_required := false }
    rfl (Or.inl rfl)).1 rfl rfl

end LoadTest
